import Mathlib

/-!
Verification development for the ResQ-Link dispatcher.

The definitions below are a shallow embedding of the Python sources
src/agents.py, src/tools.py and src/app.py.  The external language model
is abstracted as an oracle argument (a function returning
Except Unit _): the code never inspects how the model produced its
output, only the returned text / message, so every behaviour of the real
model is covered by quantifying over the oracle result.  Python
exceptions raised by the model call are the .error case of the oracle.
-/

namespace ResQLink

/-- Role of a message, mirroring the langchain message classes used in
src/agents.py: HumanMessage, AIMessage, SystemMessage, ToolMessage. -/
inductive Role where
  | human
  | ai
  | system
  | tool
deriving DecidableEq

/-- One element of a structured (list-valued) message content, as
handled by normalize_message_content in src/agents.py lines 31-40:
a plain string part, a dict part carrying a usable string under the
key text, or any other part, represented by its Python str() rendering
(a dict without a text key also falls into this last case). -/
inductive Fragment where
  | str (s : String)
  | dictWithText (text : String)
  | other (stringRep : String)
deriving DecidableEq

/-- Message content: either already a flat string or a multi-part
payload (a Python list), the two shapes src/agents.py branches on. -/
inductive Content where
  | str (s : String)
  | parts (ps : List Fragment)
deriving DecidableEq

/-- A pending tool-call request attached to an AI message: a tool name
and a mapping of named arguments to values. -/
structure ToolCall where
  name : String
  args : List (String × String)
deriving DecidableEq

/-- A conversation message.  In langchain only AIMessage has the
tool_calls attribute; the role field lets the embedding reproduce the
hasattr test of should_continue (src/agents.py line 245). -/
structure Message where
  role : Role
  content : Content
  tool_calls : List ToolCall
deriving DecidableEq

def mkHuman (s : String) : Message := ⟨Role.human, Content.str s, []⟩

def mkAI (s : String) : Message := ⟨Role.ai, Content.str s, []⟩

def mkAIWithTools (s : String) (tcs : List ToolCall) : Message := ⟨Role.ai, Content.str s, tcs⟩

def mkSystem (s : String) : Message := ⟨Role.system, Content.str s, []⟩

/-- Python str.strip(): drop whitespace from both ends. -/
def pyStrip (s : String) : String :=
  String.mk (((s.toList.dropWhile Char.isWhitespace).reverse.dropWhile Char.isWhitespace).reverse)

/-- Text contributed by one content fragment in
normalize_message_content (src/agents.py lines 33-39). -/
def fragText : Fragment → String
  | Fragment.str s => s
  | Fragment.dictWithText t => t
  | Fragment.other r => r

/-- The flat string produced from a multi-part payload:
join with single spaces, then strip (src/agents.py line 40). -/
def flattenParts (ps : List Fragment) : String :=
  pyStrip (String.intercalate " " (ps.map fragText))

/-- normalize_message_content (src/agents.py lines 23-42).  A message
whose content is a list has it collapsed to one flat string; any other
message is returned unchanged.  In Python the update is an in-place
mutation of the message object; the embedding returns the updated
message, and the in-place aliasing effect on the history list is
modelled separately by node_history_after below. -/
def normalize_message_content (m : Message) : Message :=
  match m.content with
  | Content.parts ps => { m with content := Content.str (flattenParts ps) }
  | Content.str _ => m

/-- Remove every occurrence of one character, the effect of the Python
single-character str.replace calls with an empty replacement. -/
def removeChar (c : Char) (s : String) : String :=
  String.mk (s.toList.filter (fun d => d ≠ c))

/-- The four labels recognised by the supervisor validation step
(src/agents.py line 95). -/
def routerLabels : List String := ["Triage", "Logistics", "Medical", "FINISH"]

/-- Cleaning applied to the raw router output (src/agents.py line 90):
response.content.strip().replace single quote with nothing, then
replace period with nothing.  Both replace calls remove every
occurrence of the character, not only trailing ones. -/
def cleanRouterOutput (raw : String) : String :=
  removeChar '.' (removeChar '\x27' (pyStrip raw))

/-- supervisor_node routing decision (src/agents.py lines 88-98).
The oracle result stands for llm.invoke(prompt): .ok raw is the raw
response content, .error is any raised exception, which the except
branch converts into the label Triage; afterwards any value outside
routerLabels is replaced by Triage. -/
def supervisor_node (llmResult : Except Unit String) : String :=
  let next_agent :=
    match llmResult with
    | Except.ok raw => cleanRouterOutput raw
    | Except.error _ => "Triage"
  if next_agent ∈ routerLabels then next_agent else "Triage"

/-- Drop trailing period characters only. -/
def dropTrailingPeriods (s : String) : String :=
  String.mk ((s.toList.reverse.dropWhile (fun c => c = '.')).reverse)

/-- Cleaning as worded by the claim and spec: strip whitespace, strip
quote characters, strip trailing periods.  Kept distinct from
cleanRouterOutput so the two can be compared. -/
def cleanRouterOutputPerClaim (raw : String) : String :=
  dropTrailingPeriods (removeChar '\x27' (removeChar '"' (pyStrip raw)))

/-- The router decision as the claim words it, built on the
claim-worded cleaning step. -/
def supervisor_node_per_claim (llmResult : Except Unit String) : String :=
  let next_agent :=
    match llmResult with
    | Except.ok raw => cleanRouterOutputPerClaim raw
    | Except.error _ => "Triage"
  if next_agent ∈ routerLabels then next_agent else "Triage"

/-- The triage role prompt, the system_context literal of triage_node
(src/agents.py lines 125-138). -/
def triage_system_context : String :=
  "You are an intelligent Triage Officer for ResQ-Link.\n    \n    YOUR PRIORITIES:\n    1. **Safety First:** If the user is hurt (e.g., \"dog bite\", \"cut\", \"trapped\"), IMMEDIATELY give brief life-saving advice.\n    2. **Data Collection:** To send help, you MUST log the incident using the \x27log_incident\x27 tool.\n    \n    HOW TO BEHAVE:\n    - If the user report is incomplete, give safety advice FIRST, then ask for the missing details.\n    - The \x27log_incident\x27 tool requires 3 things: \n      (1) Severity (Critical/Moderate/Minor)\n      (2) Location\n      (3) Needs (Medical/Rescue)\n    \n    Be concise and professional."

/-- The logistics role prompt, the system_context literal of
logistics_node (src/agents.py lines 171-174). -/
def logistics_system_context : String :=
  "You are the Logistics Coordinator. \n    Your job is to check inventory or find shelters.\n    Always be concise. If the database is empty, suggest searching online.\n    Be professional and helpful."

/-- The medical role prompt, the system_context literal of medical_node
(src/agents.py lines 204-207). -/
def medical_system_context : String :=
  "You are a Medical AI Assistant. \n    Provide clear, step-by-step first aid or medical advice.\n    Keep it concise and authoritative.\n    Always remind users to seek professional medical help for serious conditions."

/-- Flat text of a content value.  At every point where the code reads
a content as text (the f-string of the context injection), the message
has already passed through normalize_message_content, so the content is
a flat string and the parts branch is unreachable there. -/
def contentText : Content → String
  | Content.str s => s
  | Content.parts ps => flattenParts ps

/-- The string written into the first user message by the context
injection, the f-string of src/agents.py line 142 (and lines 177, 210):
open bracket, System Context marker, the role prompt, close bracket,
two newlines, the User marker, then the original text. -/
def wrapContext (ctx userText : String) : String :=
  "[System Context: " ++ ctx ++ "]\n\nUser: " ++ userText

/-- Effect of the context-injection statement on a message list whose
elements alias the session history (src/agents.py lines 141-142).
The code filters out system messages and then, when the first element
of the filtered list is a HumanMessage, assigns a new content to that
object.  On the unfiltered list this reads: skip leading system
messages; when the first non-system message is user-authored, rewrite
its content to the wrapped role prompt followed by its text; when it is
not user-authored, touch nothing. -/
def applyContextMutation (ctx : String) : List Message → List Message
  | [] => []
  | m :: rest =>
    match m.role with
    | Role.system => m :: applyContextMutation ctx rest
    | Role.human => { m with content := Content.str (wrapContext ctx (contentText m.content)) } :: rest
    | _ => m :: rest

/-- The value of the session history list after a specialist node ran
over it, accounting for the in-place mutations the node applies to the
aliased message objects: every message is normalised (src/agents.py
line 112 and analogues) and the first non-system message, when
user-authored, additionally receives the role-prompt wrap (line 142 and
analogues).  Messages substituted for an empty or all-system history
are fresh objects, so they leave the original list untouched, which the
recursion reproduces. -/
def node_history_after (ctx : String) (ms : List Message) : List Message :=
  applyContextMutation ctx (ms.map normalize_message_content)

/-- The helper _ensure_human_message (src/agents.py lines 45-53):
append a fallback HumanMessage when the batch has no user message. -/
def ensure_human_message (msgs : List Message) : List Message :=
  if msgs.any (fun m => m.role == Role.human) then msgs
  else msgs ++ [mkHuman "Hello, I need assistance."]

/-- The batch of messages a specialist sends to its model, shared shape
of triage_node, logistics_node and medical_node (src/agents.py lines
104-146, 158-180, 191-213): optionally substitute a placeholder for an
empty history (only triage_node has this first branch), normalise every
message, drop system messages, substitute a placeholder if that emptied
the list, inject the role prompt into the first message when it is
user-authored, and guarantee a user message is present. -/
def node_batch (emptyFallback : Option String) (noNonSystemFallback : String)
    (ctx : String) (ms : List Message) : List Message :=
  let msgs :=
    match emptyFallback, ms with
    | some fb, [] => [mkHuman fb]
    | _, _ => ms
  let msgs := msgs.map normalize_message_content
  let nonSystem := msgs.filter (fun m => m.role != Role.system)
  let nonSystem := if nonSystem.isEmpty then [mkHuman noNonSystemFallback] else nonSystem
  let nonSystem := applyContextMutation ctx nonSystem
  ensure_human_message nonSystem

/-- The message list a specialist node returns as its state update,
the singleton of src/agents.py line 153 and analogues: the normalised
model response on success, the fixed warning AIMessage when the model
invocation raised. -/
def node_run (emptyFallback : Option String) (noNonSystemFallback : String)
    (ctx warning : String) (invoke : List Message → Except Unit Message)
    (ms : List Message) : List Message :=
  match invoke (node_batch emptyFallback noNonSystemFallback ctx ms) with
  | Except.ok r => [normalize_message_content r]
  | Except.error _ => [mkAI warning]

def triage_empty_fallback : String := "User reported an incident. Please ask for details."

def triage_no_system_fallback : String := "User needs assistance. Please respond."

def triage_warning : String := "⚠️ Triage system encountered an error. Please try rephrasing your request."

def logistics_no_system_fallback : String := "User needs logistics assistance."

def logistics_warning : String := "⚠️ Logistics system encountered an error. Please try again."

def medical_no_system_fallback : String := "User needs medical advice."

def medical_warning : String := "⚠️ Medical system encountered an error. Please try again."

/-- The batch triage_node sends to the tool-bound model. -/
def triage_batch (ms : List Message) : List Message :=
  node_batch (some triage_empty_fallback) triage_no_system_fallback triage_system_context ms

/-- triage_node (src/agents.py lines 100-153), as a function from the
oracle behaviour and the incoming history to the returned message
list. -/
def triage_node (invoke : List Message → Except Unit Message) (ms : List Message) : List Message :=
  node_run (some triage_empty_fallback) triage_no_system_fallback triage_system_context
    triage_warning invoke ms

/-- The batch logistics_node sends to the tool-bound model.  Unlike
triage_node, logistics_node has no dedicated empty-history branch. -/
def logistics_batch (ms : List Message) : List Message :=
  node_batch none logistics_no_system_fallback logistics_system_context ms

/-- logistics_node (src/agents.py lines 155-187). -/
def logistics_node (invoke : List Message → Except Unit Message) (ms : List Message) : List Message :=
  node_run none logistics_no_system_fallback logistics_system_context
    logistics_warning invoke ms

/-- The batch medical_node sends to the plain model (no tools bound). -/
def medical_batch (ms : List Message) : List Message :=
  node_batch none medical_no_system_fallback medical_system_context ms

/-- medical_node (src/agents.py lines 189-220). -/
def medical_node (invoke : List Message → Except Unit Message) (ms : List Message) : List Message :=
  node_run none medical_no_system_fallback medical_system_context
    medical_warning invoke ms

/-- The LangGraph state type AgentState (src/agents.py lines 18-20). -/
structure AgentState where
  messages : List Message
  next_agent : String
deriving DecidableEq

/-- The nodes of the compiled dispatch graph plus the END sentinel
(src/agents.py lines 228-234); Terminal stands for langgraph END. -/
inductive GraphNode where
  | Supervisor
  | Triage
  | Logistics
  | Medical
  | Tools
  | Terminal
deriving DecidableEq

/-- should_continue (src/agents.py lines 242-248).  Python indexes
messages with -1, which raises on an empty list; the none result stands
for that raise.  Only AIMessage carries a tool_calls attribute, so the
hasattr test is the role check. -/
def should_continue (state : AgentState) : Option String :=
  match state.messages.getLast? with
  | none => none
  | some last =>
    if last.role == Role.ai && last.tool_calls.length > 0 then some "Tools" else some "END"

/-- The conditional-edge map of the Supervisor node (src/agents.py
lines 236-240); an unmapped label is a langgraph error, hence none. -/
def supervisorEdge (label : String) : Option GraphNode :=
  if label = "Triage" then some GraphNode.Triage
  else if label = "Logistics" then some GraphNode.Logistics
  else if label = "Medical" then some GraphNode.Medical
  else if label = "FINISH" then some GraphNode.Terminal
  else none

/-- The conditional-edge map shared by Triage and Logistics
(src/agents.py lines 250-251). -/
def specialistEdge (label : String) : Option GraphNode :=
  if label = "Tools" then some GraphNode.Tools
  else if label = "END" then some GraphNode.Terminal
  else none

/-- Successor node of the dispatch graph in a given state, assembling
the edges declared in src/agents.py lines 236-253. -/
def nextNodeFrom : GraphNode → AgentState → Option GraphNode
  | GraphNode.Supervisor, s => supervisorEdge s.next_agent
  | GraphNode.Triage, s => (should_continue s).bind specialistEdge
  | GraphNode.Logistics, s => (should_continue s).bind specialistEdge
  | GraphNode.Medical, _ => some GraphNode.Terminal
  | GraphNode.Tools, _ => some GraphNode.Supervisor
  | GraphNode.Terminal, _ => none

/-- One row of the incidents table (src/tools.py line 12): id is the
INTEGER PRIMARY KEY that sqlite auto-assigns. -/
structure Incident where
  id : Nat
  severity : String
  location : String
  needs : String
  status : String
deriving DecidableEq

/-- Largest id present in the incidents table, zero when empty. -/
def maxIncidentId (db : List Incident) : Nat :=
  db.foldr (fun r acc => max r.id acc) 0

/-- log_incident (src/tools.py lines 29-39): insert one row with
status OPEN, id assigned by sqlite as one past the largest existing
rowid (no rows are ever deleted in this core, so lastrowid is exactly
that), and return the confirmation string embedding the new id. -/
def log_incident (db : List Incident) (severity location needs : String) :
    List Incident × String :=
  let incident_id := maxIncidentId db + 1
  (db ++ [⟨incident_id, severity, location, needs, "OPEN"⟩],
    "Incident logged successfully. ID: " ++ toString incident_id ++
      ". Dispatching protocols initiated.")

/-- One row of the inventory table (src/tools.py lines 16-17). -/
structure InventoryItem where
  item : String
  quantity : Int
  location : String
deriving DecidableEq

/-- The two rows seeded by init_db (src/tools.py lines 20-21). -/
def seededInventory : List InventoryItem :=
  [⟨"Water Packs", 50, "Shelter A"⟩, ⟨"First Aid Kits", 20, "Shelter B"⟩]

/-- Whether the second list starts with the first. -/
def leadsChars : List Char → List Char → Bool
  | [], _ => true
  | _ :: _, [] => false
  | a :: as, b :: bs => a == b && leadsChars as bs

/-- Whether the needle occurs contiguously inside the hay. -/
def containsChars (needle : List Char) : List Char → Bool
  | [] => needle.isEmpty
  | c :: t => leadsChars needle (c :: t) || containsChars needle t

/-- Substring test on strings. -/
def strContains (hay needle : String) : Bool :=
  containsChars needle.toList hay.toList

/-- ASCII lowercasing of a string. -/
def toLowerStr (s : String) : String :=
  String.mk (s.toList.map Char.toLower)

/-- Whether one percent-free block of a LIKE pattern matches at the
very start of the text: an underscore in the block matches any one
character, every other block character matches case-insensitively for
ASCII letters (the sqlite default collation for LIKE). -/
def blockAt : List Char → List Char → Bool
  | [], _ => true
  | _ :: _, [] => false
  | c :: bs, t :: ts => (c == '_' || c.toLower == t.toLower) && blockAt bs ts

/-- Text remaining after the earliest occurrence of a block inside the
text, none when the block occurs nowhere.  Taking the earliest
occurrence is complete for LIKE matching because a block matches a
fixed number of characters. -/
def findBlock (b : List Char) : List Char → Option (List Char)
  | [] => if blockAt b [] then some [] else none
  | t :: ts => if blockAt b (t :: ts) then some (List.drop b.length (t :: ts)) else findBlock b ts

/-- The percent-separated blocks of a LIKE pattern body; adjacent or
outer percents yield empty blocks, which match trivially. -/
def splitBlocks : List Char → List (List Char)
  | [] => [[]]
  | c :: cs =>
    if c == '%' then [] :: splitBlocks cs
    else
      match splitBlocks cs with
      | [] => [[c]]
      | b :: bs => (c :: b) :: bs

/-- Matching of a LIKE pattern that starts and ends with a percent:
its blocks must occur in the text in order without overlap, everything
before, between and after them being absorbed by a percent. -/
def matchBlocks : List (List Char) → List Char → Bool
  | [], _ => true
  | b :: bs, ts =>
    match findBlock b ts with
    | none => false
    | some rest => matchBlocks bs rest

/-- The sqlite predicate item LIKE percent item_query percent of
src/tools.py lines 46-47.  The query is interpolated into the pattern,
so percent and underscore characters inside it act as sqlite wildcards
(percent: any character sequence, underscore: exactly one character);
comparison is case-insensitive for ASCII letters (the sqlite default
collation for LIKE). -/
def likeMatch (item_query item : String) : Bool :=
  matchBlocks (splitBlocks item_query.toList) item.toList

/-- Matching as the claim words it: a plain case-insensitive substring
test of the query against the item name, reading no character as a
wildcard.  Kept distinct from likeMatch so the two can be compared. -/
def substrMatchPerClaim (item_query item : String) : Bool :=
  strContains (toLowerStr item) (toLowerStr item_query)

/-- Rendering of one matching inventory row inside the tabular result.
This and inventoryMarkdown model the pandas DataFrame to_markdown call
of src/tools.py line 56 (third-party code): a pipe-separated table in
which every matching row contributes its item, quantity and location. -/
def inventoryMarkdownRow (r : InventoryItem) : String :=
  "| " ++ r.item ++ " | " ++ toString r.quantity ++ " | " ++ r.location ++ " |"

/-- The tabular string returned for a non-empty match set. -/
def inventoryMarkdown (rows : List InventoryItem) : String :=
  String.intercalate "\n" ("| item | quantity | location |" :: rows.map inventoryMarkdownRow)

/-- The literal not-found message (src/tools.py line 53). -/
def inventoryNotFound : String := "No specific inventory found matching that request."

/-- check_inventory (src/tools.py lines 41-56): select the rows whose
item matches the query under LIKE, return the not-found literal when
the result set is empty and the rendered table otherwise. -/
def check_inventory (inv : List InventoryItem) (item_query : String) : String :=
  let hits := inv.filter (fun r => likeMatch item_query r.item)
  if hits.isEmpty then inventoryNotFound else inventoryMarkdown hits

/-- The value attached to one node key in a streamed graph snapshot;
the Supervisor snapshot carries no messages entry (it updates only
next_agent), hence the Option. -/
structure NodeValue where
  messages : Option (List Message)
deriving DecidableEq

/-- extract_text_content (src/app.py lines 248-260): keep string parts
and dict parts with a text key, drop everything else, join with single
spaces; note it neither strips nor keeps other parts, unlike
normalize_message_content. -/
def extract_text_content : Content → String
  | Content.str s => s
  | Content.parts ps =>
    String.intercalate " "
      (ps.filterMap (fun p =>
        match p with
        | Fragment.str s => some s
        | Fragment.dictWithText t => some t
        | Fragment.other _ => none))

/-- Python truthiness of a content value, the last_msg.content test of
src/app.py line 332. -/
def contentTruthy : Content → Bool
  | Content.str s => !s.isEmpty
  | Content.parts ps => !ps.isEmpty

/-- Processing of one key-value item of a streamed snapshot (src/app.py
lines 319-333): skip the Supervisor key, skip values without a
non-empty message list, and otherwise capture the extracted text of the
last message when its content is truthy. -/
def processItem (acc : String) (item : String × NodeValue) : String :=
  if item.1 == "Supervisor" then acc
  else
    match item.2.messages with
    | none => acc
    | some msgs =>
      match msgs.getLast? with
      | none => acc
      | some last => if contentTruthy last.content then extract_text_content last.content else acc

/-- Processing of one streamed snapshot, a dict iterated in order. -/
def processOutput (acc : String) (output : List (String × NodeValue)) : String :=
  output.foldl processItem acc

/-- Result of the driving loop: how many snapshots were processed,
whether the max-iterations warning fired, and the captured final
response text. -/
structure TurnResult where
  processed : Nat
  warned : Bool
  final_text : String
deriving DecidableEq

/-- The driving loop of src/app.py lines 308-333 with max_iterations
fixed at 10: each snapshot first bumps the counter, the turn aborts
with a warning as soon as the counter exceeds 10, and otherwise the
snapshot is processed. -/
def stream_loop : Nat → String → List (List (String × NodeValue)) → TurnResult
  | count, acc, [] => ⟨count, false, acc⟩
  | count, acc, out :: rest =>
    if count + 1 > 10 then ⟨count, true, acc⟩
    else stream_loop (count + 1) (processOutput acc out) rest

/-- Running the driving loop from its initial state (iteration_count
zero, empty final_response_text). -/
def run_stream (stream : List (List (String × NodeValue))) : TurnResult :=
  stream_loop 0 "" stream

/-- The effect of one whole turn on the session history (src/app.py
lines 336-340): the captured text is appended as one AIMessage when
non-empty, and nothing already in the history is touched. -/
def run_turn (history : List Message) (stream : List (List (String × NodeValue))) :
    List Message × Bool :=
  let r := run_stream stream
  (if r.final_text.isEmpty then history else history ++ [mkAI r.final_text], r.warned)

/-- An oracle whose model call always raises, for exercising the error
recovery paths. -/
def failingOracle : List Message → Except Unit Message :=
  fun _ => Except.error ()

/-- Claim C10: normalize_message_content is idempotent, and one
application to a message with list content replaces the content with
the single flat string obtained by keeping string fragments, taking the
text field of dict fragments, stringifying all other fragments, joining
with single spaces and stripping. -/
theorem normalize_idempotent_and_flattens (m : Message) (ps : List Fragment) (s t r : String) :
    normalize_message_content (normalize_message_content m) = normalize_message_content m ∧
    (m.content = Content.parts ps →
      (normalize_message_content m).content =
        Content.str (pyStrip (String.intercalate " " (ps.map fragText)))) ∧
    fragText (Fragment.str s) = s ∧
    fragText (Fragment.dictWithText t) = t ∧
    fragText (Fragment.other r) = r := by
  refine ⟨?_, ?_, rfl, rfl, rfl⟩
  · rcases m with ⟨ro, co, tc⟩
    cases co <;> rfl
  · intro h
    rcases m with ⟨ro, co, tc⟩
    cases co with
    | str s0 => exact absurd h (by simp)
    | parts ps0 =>
      cases h
      rfl

/-- Witness for C10 at a concrete message with a two-part payload. -/
theorem normalize_idempotent_and_flattens_witness :
    normalize_message_content (normalize_message_content (mkHuman "hi")) =
      normalize_message_content (mkHuman "hi") ∧
    (normalize_message_content ⟨Role.human, Content.parts [Fragment.str "a", Fragment.dictWithText "b"], []⟩).content =
      Content.str (pyStrip (String.intercalate " " ([Fragment.str "a", Fragment.dictWithText "b"].map fragText))) :=
  ⟨(normalize_idempotent_and_flattens (mkHuman "hi") [] "" "" "").1,
    (normalize_idempotent_and_flattens
      ⟨Role.human, Content.parts [Fragment.str "a", Fragment.dictWithText "b"], []⟩
      [Fragment.str "a", Fragment.dictWithText "b"] "" "" "").2.1 rfl⟩

/-- Claim C2, counterexample: the code removes every period (and every
single quote), not only trailing periods, so on the raw output
Med.ical the code routes to Medical while the cleaning worded by the
claim leaves Med.ical unrecognised and falls back to Triage. -/
theorem router_cleaning_counterexample :
    supervisor_node (Except.ok "Med.ical") = "Medical" ∧
    supervisor_node_per_claim (Except.ok "Med.ical") = "Triage" ∧
    supervisor_node (Except.ok "Med.ical") ≠ supervisor_node_per_claim (Except.ok "Med.ical") := by
  refine ⟨by decide, by decide, by decide⟩

/-- Claim C2 as amended: the raw output is stripped of surrounding
whitespace and of every single-quote and every period character
(wherever they occur; double quotes are not removed); a cleaned output
among the four labels is returned as is, anything else and any failed
call yields Triage, so the decision is always one of the four labels
and never raw model text. -/
theorem router_decision_closed (res : Except Unit String) (raw : String) :
    supervisor_node res ∈ routerLabels ∧
    supervisor_node (Except.error ()) = "Triage" ∧
    (cleanRouterOutput raw ∈ routerLabels →
      supervisor_node (Except.ok raw) = cleanRouterOutput raw) ∧
    (cleanRouterOutput raw ∉ routerLabels →
      supervisor_node (Except.ok raw) = "Triage") := by
  refine ⟨?_, by decide, ?_, ?_⟩
  · cases res with
    | ok raw2 =>
      unfold supervisor_node
      dsimp only
      split
      · assumption
      · decide
    | error e =>
      cases e
      decide
  · intro h
    unfold supervisor_node
    dsimp only
    rw [if_pos h]
  · intro h
    unfold supervisor_node
    dsimp only
    rw [if_neg h]

/-- Witness for C2 at concrete raw outputs: a recognised label passes
through cleaned, garbage falls back to Triage. -/
theorem router_decision_closed_witness :
    supervisor_node (Except.ok " Medical. ") ∈ routerLabels ∧
    supervisor_node (Except.ok " Medical. ") = cleanRouterOutput " Medical. " ∧
    supervisor_node (Except.ok "garbage") = "Triage" :=
  ⟨(router_decision_closed (Except.ok " Medical. ") " Medical. ").1,
    (router_decision_closed (Except.ok " Medical. ") " Medical. ").2.2.1 (by decide),
    (router_decision_closed (Except.ok "garbage") "garbage").2.2.2 (by decide)⟩

theorem foldr_max_init (l : List Incident) (a : Nat) :
    l.foldr (fun r acc => max r.id acc) a = max (maxIncidentId l) a := by
  induction l with
  | nil => simp [maxIncidentId]
  | cons r t ih => simp [maxIncidentId, ih, Nat.max_assoc]

theorem maxIncidentId_append (db : List Incident) (r : Incident) :
    maxIncidentId (db ++ [r]) = max (maxIncidentId db) r.id := by
  show List.foldr (fun r acc => max r.id acc) 0 (db ++ [r]) = max (maxIncidentId db) r.id
  rw [List.foldr_append, foldr_max_init]
  congr 1
  show max r.id 0 = r.id
  exact Nat.max_zero r.id

/-- Claim C5: log_incident always appends exactly one OPEN row whose id
embeds in the returned confirmation string, and it is never idempotent:
a second call with identical arguments appends a second row with a
strictly different id. -/
theorem log_incident_two_rows (db : List Incident) (severity location needs : String) :
    (log_incident db severity location needs).1 =
      db ++ [⟨maxIncidentId db + 1, severity, location, needs, "OPEN"⟩] ∧
    (log_incident db severity location needs).2 =
      "Incident logged successfully. ID: " ++ toString (maxIncidentId db + 1) ++
        ". Dispatching protocols initiated." ∧
    (log_incident ((log_incident db severity location needs).1) severity location needs).1 =
      db ++ [⟨maxIncidentId db + 1, severity, location, needs, "OPEN"⟩,
        ⟨maxIncidentId db + 2, severity, location, needs, "OPEN"⟩] ∧
    maxIncidentId db + 2 ≠ maxIncidentId db + 1 := by
  have h1 : maxIncidentId
      (db ++ [⟨maxIncidentId db + 1, severity, location, needs, "OPEN"⟩]) =
      maxIncidentId db + 1 := by
    rw [maxIncidentId_append]
    exact Nat.max_eq_right (Nat.le_succ _)
  refine ⟨rfl, rfl, ?_, by omega⟩
  unfold log_incident
  dsimp only
  rw [h1, List.append_assoc]
  rfl

/-- Witness for C5: both calls evaluated on the empty store. -/
theorem log_incident_two_rows_witness :
    (log_incident ([] : List Incident) "Critical" "Main St" "Rescue").1 =
      [] ++ [⟨maxIncidentId [] + 1, "Critical", "Main St", "Rescue", "OPEN"⟩] ∧
    maxIncidentId ([] : List Incident) + 2 ≠ maxIncidentId ([] : List Incident) + 1 :=
  ⟨(log_incident_two_rows [] "Critical" "Main St" "Rescue").1,
    (log_incident_two_rows [] "Critical" "Main St" "Rescue").2.2.2⟩

theorem blockAt_eq_leads : ∀ (b : List Char), b.all (fun c => !(c == '_')) = true →
    ∀ (ts : List Char), blockAt b ts = leadsChars (b.map Char.toLower) (ts.map Char.toLower) := by
  intro b
  induction b with
  | nil => intro _ ts; cases ts <;> rfl
  | cons c bs ih =>
    intro hb ts
    simp only [List.all_cons, Bool.and_eq_true] at hb
    cases ts with
    | nil => rfl
    | cons t ts2 =>
      show ((c == '_' || c.toLower == t.toLower) && blockAt bs ts2) =
        ((c.toLower == t.toLower) && leadsChars (bs.map Char.toLower) (ts2.map Char.toLower))
      rw [ih hb.2 ts2]
      have h1 : (c == '_') = false := by simpa using hb.1
      rw [h1, Bool.false_or]

theorem findBlock_isSome_eq (b : List Char) (hb : b.all (fun c => !(c == '_')) = true) :
    ∀ ts, (findBlock b ts).isSome = containsChars (b.map Char.toLower) (ts.map Char.toLower) := by
  intro ts
  induction ts with
  | nil => cases b <;> rfl
  | cons t ts2 ih =>
    show (if blockAt b (t :: ts2) then some (List.drop b.length (t :: ts2))
          else findBlock b ts2).isSome =
      (leadsChars (b.map Char.toLower) ((t :: ts2).map Char.toLower) ||
        containsChars (b.map Char.toLower) (ts2.map Char.toLower))
    rw [← blockAt_eq_leads b hb (t :: ts2), ← ih]
    cases h : blockAt b (t :: ts2) <;> simp [h]

theorem splitBlocks_no_percent (q : List Char) (hq : q.all (fun c => !(c == '%')) = true) :
    splitBlocks q = [q] := by
  induction q with
  | nil => rfl
  | cons c cs ih =>
    simp only [List.all_cons, Bool.and_eq_true] at hq
    have h1 : (c == '%') = false := by simpa using hq.1
    simp only [splitBlocks, h1, ih hq.2]
    rfl

theorem likeMatch_no_wildcards (q : String)
    (hq : q.toList.all (fun c => !(c == '%' || c == '_')) = true) (item : String) :
    likeMatch q item = substrMatchPerClaim q item := by
  have hq' : ∀ c ∈ q.toList, (c == '%') = false ∧ (c == '_') = false := by
    intro c hc
    simpa using List.all_eq_true.mp hq c hc
  have hq1 : q.toList.all (fun c => !(c == '%')) = true :=
    List.all_eq_true.mpr (fun c hc => by simp [(hq' c hc).1])
  have hq2 : q.toList.all (fun c => !(c == '_')) = true :=
    List.all_eq_true.mpr (fun c hc => by simp [(hq' c hc).2])
  unfold likeMatch substrMatchPerClaim strContains
  rw [splitBlocks_no_percent q.toList hq1]
  have hiso : matchBlocks [q.toList] item.toList = (findBlock q.toList item.toList).isSome := by
    show (match findBlock q.toList item.toList with
          | none => false
          | some rest => matchBlocks [] rest) = (findBlock q.toList item.toList).isSome
    cases findBlock q.toList item.toList <;> rfl
  rw [hiso, findBlock_isSome_eq q.toList hq2 item.toList]
  rfl

/-- Claim C6, counterexample: the query is interpolated into the LIKE
pattern, so the query consisting of a single percent character matches
every row, and check_inventory returns the full seeded table, while the
plain case-insensitive substring match the claim describes matches no
row and would demand the not-found message. -/
theorem inventory_wildcard_counterexample :
    check_inventory seededInventory "%" = inventoryMarkdown seededInventory ∧
    seededInventory.filter (fun r => substrMatchPerClaim "%" r.item) = [] ∧
    check_inventory seededInventory "%" ≠ inventoryNotFound := by
  refine ⟨by decide, by decide, by decide⟩

/-- Claim C6 as amended: check_inventory matches the query against the
item names under sqlite LIKE with surrounding percents, so percent and
underscore inside the query act as wildcards, and for queries
containing neither wildcard the match is exactly the case-insensitive
substring test; the result is the rendered table of exactly the
matching rows, or the literal not-found message precisely when no row
matches; on the seeded store, the query water yields a result
containing Water Packs and 50, and xyz-nonexistent yields the
not-found message. -/
theorem check_inventory_matching (inv : List InventoryItem) (q : String) :
    (inv.filter (fun r => likeMatch q r.item) = [] →
      check_inventory inv q = inventoryNotFound) ∧
    (inv.filter (fun r => likeMatch q r.item) ≠ [] →
      check_inventory inv q = inventoryMarkdown (inv.filter (fun r => likeMatch q r.item))) ∧
    (q.toList.all (fun c => !(c == '%' || c == '_')) = true →
      ∀ item, likeMatch q item = substrMatchPerClaim q item) ∧
    strContains (check_inventory seededInventory "water") "Water Packs" = true ∧
    strContains (check_inventory seededInventory "water") "50" = true ∧
    check_inventory seededInventory "xyz-nonexistent" = inventoryNotFound := by
  refine ⟨?_, ?_, fun hq => likeMatch_no_wildcards q hq, by decide, by decide, by decide⟩
  · intro h
    simp only [check_inventory, h]
    rfl
  · intro h
    simp only [check_inventory]
    cases hl : inv.filter (fun r => likeMatch q r.item) with
    | nil => exact absurd hl h
    | cons a t => rfl

/-- Witness for C6: both result branches and the wildcard-free
equivalence exercised on the seeded store. -/
theorem check_inventory_matching_witness :
    check_inventory seededInventory "xyz-nonexistent" = inventoryNotFound ∧
    check_inventory seededInventory "water" =
      inventoryMarkdown (seededInventory.filter (fun r => likeMatch "water" r.item)) ∧
    likeMatch "water" "Water Packs" = substrMatchPerClaim "water" "Water Packs" :=
  ⟨(check_inventory_matching seededInventory "xyz-nonexistent").1 (by decide),
    (check_inventory_matching seededInventory "water").2.1 (by decide),
    (check_inventory_matching seededInventory "water").2.2.1 (by decide) "Water Packs"⟩

theorem node_run_length (emptyFallback : Option String) (noNonSystemFallback ctx warning : String)
    (invoke : List Message → Except Unit Message) (ms : List Message) :
    (node_run emptyFallback noNonSystemFallback ctx warning invoke ms).length = 1 := by
  unfold node_run
  split <;> rfl

/-- Claim C7: each specialist responder, given an empty history,
returns exactly one message for every oracle behaviour, and the batch
it sends to the model is a single synthetic user message, so the empty
input list never makes the call fail. -/
theorem specialists_empty_history (invoke : List Message → Except Unit Message) :
    (triage_node invoke []).length = 1 ∧
    (logistics_node invoke []).length = 1 ∧
    (medical_node invoke []).length = 1 ∧
    (triage_batch []).length = 1 ∧
    (triage_batch []).all (fun m => m.role == Role.human) = true ∧
    (logistics_batch []).length = 1 ∧
    (logistics_batch []).all (fun m => m.role == Role.human) = true ∧
    (medical_batch []).length = 1 ∧
    (medical_batch []).all (fun m => m.role == Role.human) = true :=
  ⟨node_run_length (some triage_empty_fallback) triage_no_system_fallback triage_system_context
      triage_warning invoke [],
    node_run_length none logistics_no_system_fallback logistics_system_context
      logistics_warning invoke [],
    node_run_length none medical_no_system_fallback medical_system_context
      medical_warning invoke [],
    by decide, by decide, by decide, by decide, by decide, by decide⟩

/-- Witness for C7: the three specialists evaluated on the empty
history under the always-failing oracle. -/
theorem specialists_empty_history_witness :
    (triage_node failingOracle []).length = 1 ∧
    (logistics_node failingOracle []).length = 1 ∧
    (medical_node failingOracle []).length = 1 :=
  ⟨(specialists_empty_history failingOracle).1,
    (specialists_empty_history failingOracle).2.1,
    (specialists_empty_history failingOracle).2.2.1⟩

theorem stream_loop_cap (l : List (List (String × NodeValue))) :
    ∀ count acc, count ≤ 10 → 10 < count + l.length →
      (stream_loop count acc l).processed = 10 ∧ (stream_loop count acc l).warned = true := by
  induction l with
  | nil =>
    intro count acc hc hl
    simp only [List.length_nil, Nat.add_zero] at hl
    omega
  | cons out rest ih =>
    intro count acc hc hl
    unfold stream_loop
    by_cases h : count + 1 > 10
    · rw [if_pos h]
      refine ⟨?_, rfl⟩
      show count = 10
      omega
    · rw [if_neg h]
      refine ih (count + 1) (processOutput acc out) (by omega) ?_
      simp only [List.length_cons] at hl
      omega

/-- Claim C3: whenever the stream of graph snapshots would run past the
cap, the driving loop processes exactly 10 of them and fires the
max-iterations warning, and the turn only ever appends to the session
history, discarding nothing already accumulated. -/
theorem dispatch_step_cap (stream : List (List (String × NodeValue)))
    (history : List Message) (h : 10 < stream.length) :
    (run_stream stream).processed = 10 ∧
    (run_stream stream).warned = true ∧
    ∃ appended, (run_turn history stream).1 = history ++ appended := by
  have hc := stream_loop_cap stream 0 "" (by omega) (by omega)
  refine ⟨hc.1, hc.2, ?_⟩
  unfold run_turn
  dsimp only
  split
  · exact ⟨[], by simp⟩
  · exact ⟨[mkAI (run_stream stream).final_text], rfl⟩

/-- Witness for C3: a pathological eleven-snapshot stream is cut at ten
processed snapshots with the warning, and an arbitrary history is kept
as a prefix. -/
theorem dispatch_step_cap_witness :
    (run_stream (List.replicate 11 [])).processed = 10 ∧
    (run_stream (List.replicate 11 [])).warned = true ∧
    ∃ appended, (run_turn [mkHuman "hi"] (List.replicate 11 [])).1 = [mkHuman "hi"] ++ appended :=
  dispatch_step_cap (List.replicate 11 []) [mkHuman "hi"] (by decide)

/-- Claim C4: with the emitted specialist message last in the state,
Triage and Logistics step to Tools exactly when that message carries at
least one pending tool call and to the terminal state otherwise,
Medical steps to the terminal state unconditionally, and Tools always
steps back to Supervisor. -/
theorem specialist_edges (s : AgentState) (em : Message)
    (hlast : s.messages.getLast? = some em) (hrole : em.role = Role.ai) :
    (nextNodeFrom GraphNode.Triage s = some GraphNode.Tools ↔ em.tool_calls ≠ []) ∧
    (nextNodeFrom GraphNode.Triage s = some GraphNode.Terminal ↔ em.tool_calls = []) ∧
    (nextNodeFrom GraphNode.Logistics s = some GraphNode.Tools ↔ em.tool_calls ≠ []) ∧
    (nextNodeFrom GraphNode.Logistics s = some GraphNode.Terminal ↔ em.tool_calls = []) ∧
    nextNodeFrom GraphNode.Medical s = some GraphNode.Terminal ∧
    nextNodeFrom GraphNode.Tools s = some GraphNode.Supervisor := by
  have hsc : should_continue s =
      some (if em.tool_calls.length > 0 then "Tools" else "END") := by
    unfold should_continue
    rw [hlast]
    dsimp only
    rw [hrole]
    by_cases hc : em.tool_calls.length > 0 <;> simp [hc]
  by_cases hnil : em.tool_calls = []
  · have hend : should_continue s = some "END" := by rw [hsc]; simp [hnil]
    refine ⟨?_, ?_, ?_, ?_, rfl, rfl⟩ <;>
      simp [nextNodeFrom, hend, specialistEdge, hnil]
  · have hlen : em.tool_calls.length > 0 := by
      cases hn : em.tool_calls with
      | nil => exact absurd hn hnil
      | cons a t => simp [hn]
    have htools : should_continue s = some "Tools" := by rw [hsc]; simp [hlen]
    refine ⟨?_, ?_, ?_, ?_, rfl, rfl⟩ <;>
      simp [nextNodeFrom, htools, specialistEdge, hnil]

/-- Witness for C4: a message with a pending tool call steps Triage to
Tools, and a plain text message steps Logistics to the terminal
state. -/
theorem specialist_edges_witness :
    nextNodeFrom GraphNode.Triage
      ⟨[mkAIWithTools "" [⟨"log_incident", [("severity", "Minor")]⟩]], "Triage"⟩ =
      some GraphNode.Tools ∧
    nextNodeFrom GraphNode.Logistics ⟨[mkAI "done"], "Logistics"⟩ = some GraphNode.Terminal :=
  ⟨(specialist_edges
      ⟨[mkAIWithTools "" [⟨"log_incident", [("severity", "Minor")]⟩]], "Triage"⟩
      (mkAIWithTools "" [⟨"log_incident", [("severity", "Minor")]⟩]) rfl rfl).1.mpr
      (by decide),
    (specialist_edges ⟨[mkAI "done"], "Logistics"⟩ (mkAI "done") rfl rfl).2.2.2.1.mpr rfl⟩

/-- Claim C8: when the model call of a specialist raises, the node
returns exactly its fixed warning message, and from that message each
specialist proceeds to the terminal state, so the turn completes
normally. -/
theorem specialist_failure_recovery (invoke : List Message → Except Unit Message)
    (ms : List Message) (na : String)
    (ht : invoke (triage_batch ms) = Except.error ())
    (hl : invoke (logistics_batch ms) = Except.error ())
    (hm : invoke (medical_batch ms) = Except.error ()) :
    triage_node invoke ms = [mkAI triage_warning] ∧
    nextNodeFrom GraphNode.Triage ⟨[mkAI triage_warning], na⟩ = some GraphNode.Terminal ∧
    logistics_node invoke ms = [mkAI logistics_warning] ∧
    nextNodeFrom GraphNode.Logistics ⟨[mkAI logistics_warning], na⟩ = some GraphNode.Terminal ∧
    medical_node invoke ms = [mkAI medical_warning] ∧
    nextNodeFrom GraphNode.Medical ⟨[mkAI medical_warning], na⟩ = some GraphNode.Terminal := by
  have ht2 : invoke (node_batch (some triage_empty_fallback) triage_no_system_fallback
      triage_system_context ms) = Except.error () := ht
  have hl2 : invoke (node_batch none logistics_no_system_fallback
      logistics_system_context ms) = Except.error () := hl
  have hm2 : invoke (node_batch none medical_no_system_fallback
      medical_system_context ms) = Except.error () := hm
  refine ⟨?_, rfl, ?_, rfl, ?_, rfl⟩
  · unfold triage_node node_run
    rw [ht2]
  · unfold logistics_node node_run
    rw [hl2]
  · unfold medical_node node_run
    rw [hm2]

/-- Witness for C8: the always-failing oracle on an empty history. -/
theorem specialist_failure_recovery_witness :
    triage_node failingOracle [] = [mkAI triage_warning] ∧
    nextNodeFrom GraphNode.Triage ⟨[mkAI triage_warning], "Triage"⟩ = some GraphNode.Terminal ∧
    logistics_node failingOracle [] = [mkAI logistics_warning] ∧
    medical_node failingOracle [] = [mkAI medical_warning] :=
  ⟨(specialist_failure_recovery failingOracle [] "Triage" rfl rfl rfl).1,
    (specialist_failure_recovery failingOracle [] "Triage" rfl rfl rfl).2.1,
    (specialist_failure_recovery failingOracle [] "Triage" rfl rfl rfl).2.2.1,
    (specialist_failure_recovery failingOracle [] "Triage" rfl rfl rfl).2.2.2.2.1⟩

theorem normalize_role (m : Message) : (normalize_message_content m).role = m.role := by
  rcases m with ⟨ro, co, tc⟩
  cases co <;> rfl

theorem normalize_tool_calls (m : Message) :
    (normalize_message_content m).tool_calls = m.tool_calls := by
  rcases m with ⟨ro, co, tc⟩
  cases co <;> rfl

theorem applyContextMutation_pointwise (ctx : String) (l : List Message) :
    List.Forall₂ (fun post pre =>
      post.role = pre.role ∧ post.tool_calls = pre.tool_calls ∧
      (post.content = pre.content ∨
        post.content = Content.str (wrapContext ctx (contentText pre.content))))
      (applyContextMutation ctx l) l := by
  induction l with
  | nil => exact List.Forall₂.nil
  | cons m rest ih =>
    have hrefl : List.Forall₂ (fun post pre =>
        post.role = pre.role ∧ post.tool_calls = pre.tool_calls ∧
        (post.content = pre.content ∨
          post.content = Content.str (wrapContext ctx (contentText pre.content))))
        rest rest :=
      List.forall₂_same.mpr (fun x _ => ⟨rfl, rfl, Or.inl rfl⟩)
    rcases m with ⟨ro, co, tc⟩
    cases ro
    case human => exact List.Forall₂.cons ⟨rfl, rfl, Or.inr rfl⟩ hrefl
    case system => exact List.Forall₂.cons ⟨rfl, rfl, Or.inl rfl⟩ ih
    case ai => exact List.Forall₂.cons ⟨rfl, rfl, Or.inl rfl⟩ hrefl
    case tool => exact List.Forall₂.cons ⟨rfl, rfl, Or.inl rfl⟩ hrefl

/-- Claim C1, counterexample: running the triage node over the
one-message history help rewrites that message in place to the wrapped
role prompt, a change that is not the content normalization (which
leaves a flat string untouched), so the history is not textually
preserved up to normalization. -/
theorem history_rewrite_counterexample :
    node_history_after triage_system_context [mkHuman "help"] ≠
      [normalize_message_content (mkHuman "help")] ∧
    node_history_after triage_system_context [mkHuman "help"] ≠ [mkHuman "help"] := by
  refine ⟨by decide, by decide⟩

/-- Claim C1 as amended: a specialist node neither deletes nor reorders
nor inserts history messages and never changes a message role or its
pending tool calls, and each message content is touched only by the
one-time normalization, except that the first non-system message, when
user-authored, is additionally rewritten in place to the role-prompt
wrap of its normalized text; new messages enter the state only as the
appended node output. -/
theorem history_mutation_bound (ctx : String) (ms : List Message) :
    List.Forall₂ (fun post pre =>
      post.role = pre.role ∧ post.tool_calls = pre.tool_calls ∧
      (post.content = (normalize_message_content pre).content ∨
        post.content =
          Content.str (wrapContext ctx (contentText (normalize_message_content pre).content))))
      (node_history_after ctx ms) ms := by
  have h := applyContextMutation_pointwise ctx (ms.map normalize_message_content)
  rw [List.forall₂_map_right_iff] at h
  exact h.imp
    (fun a b hab =>
      ⟨hab.1.trans (normalize_role b), hab.2.1.trans (normalize_tool_calls b), hab.2.2⟩)

/-- Witness for C1: the mutation bound evaluated on a one-message
history under the concrete context ctx. -/
theorem history_mutation_bound_witness :
    List.Forall₂ (fun post pre =>
      post.role = pre.role ∧ post.tool_calls = pre.tool_calls ∧
      (post.content = (normalize_message_content pre).content ∨
        post.content =
          Content.str (wrapContext "ctx" (contentText (normalize_message_content pre).content))))
      (node_history_after "ctx" [mkHuman "hi"]) [mkHuman "hi"] :=
  history_mutation_bound "ctx" [mkHuman "hi"]

/-- Claim C9, counterexample: when the first remaining message after
system filtering is not user-authored, no role prompt is injected
anywhere: on the history AI hi then user help, the batch is passed
through unchanged and the first user message still reads help, which
does not start with the role prompt. -/
theorem role_prompt_counterexample :
    triage_batch [mkAI "hi", mkHuman "help"] = [mkAI "hi", mkHuman "help"] ∧
    (triage_batch [mkAI "hi", mkHuman "help"]).find? (fun m => m.role == Role.human) =
      some (mkHuman "help") ∧
    leadsChars triage_system_context.toList "help".toList = false := by
  refine ⟨by decide, by decide, by decide⟩

/-- Claim C9 as amended: after system-message filtering the role prompt
is injected, wrapped as a System Context frame followed by a User
marker, as a prefix on the first remaining message exactly when that
message is user-authored; when the first remaining message is not
user-authored nothing is injected at all. -/
theorem role_prompt_injection (ctx : String) (m : Message) (rest : List Message)
    (hns : m.role ≠ Role.system) :
    (m.role = Role.human →
      applyContextMutation ctx (m :: rest) =
        { m with content := Content.str (wrapContext ctx (contentText m.content)) } :: rest) ∧
    (m.role ≠ Role.human → applyContextMutation ctx (m :: rest) = m :: rest) := by
  rcases m with ⟨ro, co, tc⟩
  cases ro
  case human => exact ⟨fun _ => rfl, fun h => absurd rfl h⟩
  case system => exact absurd rfl hns
  case ai => exact ⟨fun h => (nomatch h), fun _ => rfl⟩
  case tool => exact ⟨fun h => (nomatch h), fun _ => rfl⟩

/-- Witness for C9: on a leading user message the triage role prompt is
injected as the wrapped prefix. -/
theorem role_prompt_injection_witness :
    applyContextMutation triage_system_context [mkHuman "help"] =
      [{ mkHuman "help" with
          content := Content.str (wrapContext triage_system_context
            (contentText (mkHuman "help").content)) }] :=
  (role_prompt_injection triage_system_context (mkHuman "help") [] (by decide)).1 rfl

end ResQLink
